import Mathlib

/-!
Verification development for the Avilla excerpt: the adapter-protocol message
element library (`avilla/onebot/elements.py`) and the relationship / executor
core (`avilla/core/relationship.py`).

Machine strings are Lean `String`s; Python `Optional[str]` fields become
`Option String`.  Each definition embeds the source function it is named
after; definitions marked "Modelled from the spec" embed repository code whose
implementation file is not part of the excerpt.
-/

/-- Models the f-string fragment `{x or 'null'}` used by the element library
for an optional string field: Python's `or` falls through to `'null'` for both
`None` and the empty string (both are falsy). -/
def pyOrNull : Option String → String
  | none => "null"
  | some s => if s = "" then "null" else s

/-- Element `Poke`: `type: str, id: str, name: Optional[str] = None`. -/
structure Poke where
  type : String
  id : String
  name : Option String := none

/-- Source `Poke.asDisplay`:
`f"[$onebot::Poke:type={self.type},id={self.id},name={self.name or 'null'}]"`. -/
def Poke.asDisplay (e : Poke) : String :=
  "[$onebot::Poke:type=" ++ e.type ++ ",id=" ++ e.id ++ ",name=" ++ pyOrNull e.name ++ "]"

/-- Element `Share`: `url, title: str`, `content, image: Optional[str] = None`. -/
structure Share where
  url : String
  title : String
  content : Option String := none
  image : Option String := none

/-- Source `Share.asDisplay`.  The source writes the f-string across several physical
lines with backslash line continuations; inside a Python string literal a
backslash-newline removes only the newline, so the 12 leading spaces of each
continuation line are part of the literal.  The embedding reproduces them. -/
def Share.asDisplay (e : Share) : String :=
  "[$onebot::Share:" ++ "            url=" ++ e.url ++ ","
    ++ "            title=" ++ e.title ++ ","
    ++ "            content=" ++ pyOrNull e.content ++ ","
    ++ "            image=" ++ pyOrNull e.image ++ "]"

/-- Element `Location`.  The source declares `lat, lon: float`; the embedding
carries the decimal strings Python's f-string interpolation produces for them,
since no claim concerns numeric formatting.  `title, content` are optional. -/
structure Location where
  lat : String
  lon : String
  title : Option String := none
  content : Option String := none

/-- Source `Location.asDisplay`, with the same backslash-continuation indentation
artifact as `Share.asDisplay` (12 spaces before each field). -/
def Location.asDisplay (e : Location) : String :=
  "[$onebot::Location:" ++ "            lat=" ++ e.lat ++ ","
    ++ "            lon=" ++ e.lon ++ ","
    ++ "            title=" ++ pyOrNull e.title ++ ","
    ++ "            content=" ++ pyOrNull e.content ++ "]"

/-- Element `CustomMusicShare`: `url, audio, title: str`,
`content, image: Optional[str] = None`. -/
structure CustomMusicShare where
  url : String
  audio : String
  title : String
  content : Option String := none
  image : Option String := none

/-- Source `CustomMusicShare.asDisplay`, with the same backslash-continuation
indentation artifact as `Share.asDisplay` (12 spaces before each field). -/
def CustomMusicShare.asDisplay (e : CustomMusicShare) : String :=
  "[$onebot::CustomMusicShare:" ++ "            url=" ++ e.url ++ ","
    ++ "            audio=" ++ e.audio ++ ","
    ++ "            title=" ++ e.title ++ ","
    ++ "            content=" ++ pyOrNull e.content ++ ","
    ++ "            image=" ++ pyOrNull e.image ++ "]"

theorem pyOrNull_empty : pyOrNull (some "") = "null" := by decide

theorem pyOrNull_none : pyOrNull none = "null" := rfl

/-- C1: the claim states `Share(url="u", title="t").asDisplay()` is exactly
`[$onebot::Share:url=u,title=t,content=null,image=null]` with no extra
whitespace; the code instead leaks 12 spaces of f-string continuation-line
indentation before every field.  This theorem evaluates the embedded code at
that input, showing the actual string and that it differs from the claimed
one. -/
theorem share_asDisplay_leaks_indentation :
    Share.asDisplay ⟨"u", "t", none, none⟩ =
      "[$onebot::Share:            url=u,            title=t,            content=null,            image=null]"
    ∧ Share.asDisplay ⟨"u", "t", none, none⟩ ≠
      "[$onebot::Share:url=u,title=t,content=null,image=null]" := by
  constructor
  · rfl
  · decide

/-- C10: for every adapter element with an optional string field, supplying the
empty string renders the literal word `null` in `asDisplay()`, exactly as if
the field were absent — the display string cannot distinguish the two. -/
theorem optional_empty_string_renders_null :
    (∀ t i, Poke.asDisplay ⟨t, i, some ""⟩ = Poke.asDisplay ⟨t, i, none⟩)
    ∧ (∀ u t im, Share.asDisplay ⟨u, t, some "", im⟩ = Share.asDisplay ⟨u, t, none, im⟩)
    ∧ (∀ u t c, Share.asDisplay ⟨u, t, c, some ""⟩ = Share.asDisplay ⟨u, t, c, none⟩)
    ∧ (∀ la lo c, Location.asDisplay ⟨la, lo, some "", c⟩ = Location.asDisplay ⟨la, lo, none, c⟩)
    ∧ (∀ la lo t, Location.asDisplay ⟨la, lo, t, some ""⟩ = Location.asDisplay ⟨la, lo, t, none⟩)
    ∧ (∀ u a t im, CustomMusicShare.asDisplay ⟨u, a, t, some "", im⟩
        = CustomMusicShare.asDisplay ⟨u, a, t, none, im⟩)
    ∧ (∀ u a t c, CustomMusicShare.asDisplay ⟨u, a, t, c, some ""⟩
        = CustomMusicShare.asDisplay ⟨u, a, t, c, none⟩)
    ∧ Poke.asDisplay ⟨"wave", "123", some ""⟩ = "[$onebot::Poke:type=wave,id=123,name=null]" := by
  refine ⟨?_, ?_, ?_, ?_, ?_, ?_, ?_, ?_⟩ <;>
    simp [Poke.asDisplay, Share.asDisplay, Location.asDisplay, CustomMusicShare.asDisplay,
      pyOrNull_empty, pyOrNull_none]

/-- Modelled from the spec: `avilla/core/utilles/selector.py` is not in the
excerpt.  A `Selector` is an ordered mapping from level name to level value;
keys are kept in insertion order. -/
abbrev Sel := List (String × String)

/-- Modelled from the spec: a `DynamicSelector` value is either a concrete
string or a wildcard marker. -/
inductive PatValue where
  | str (s : String)
  | wildcard
deriving DecidableEq, Repr

/-- Modelled from the spec: a `DynamicSelector` pattern, ordered like `Sel`. -/
abbrev DynSel := List (String × PatValue)

/-- Modelled from the spec: `Selector.path` is the dot-joined key sequence. -/
def Sel.path (s : Sel) : String :=
  String.intercalate "." (s.map Prod.fst)

/-- Modelled from the spec: Python dict assignment `sel.pattern[k] = v` —
replaces the value in place when the key is present (keeping its position),
otherwise appends the pair. -/
def Sel.setKey : Sel → String → String → Sel
  | [], k, v => [(k, v)]
  | (k', v') :: rest, k, v =>
    if k' = k then (k, v) :: rest else (k', v') :: Sel.setKey rest k v

/-- Modelled from the spec: `DynamicSelector.match(other)` — true iff every
concrete key/value pair of the pattern is present with an equal value in the
other selector; wildcard entries impose no constraint. -/
def DynSel.matches (pat : DynSel) (other : Sel) : Bool :=
  pat.all fun kv =>
    match kv.2 with
    | .str v => List.lookup kv.1 other == some v
    | .wildcard => true

/-- One entry of `BaseProtocol.action_executors`: an optional guard pattern,
and the value `executor(protocol).execute(relationship, action)` would
return (represented by a string). -/
structure ActionExecutor where
  pattern : Option DynSel
  result : String
deriving DecidableEq, Repr

/-- The `NotImplementedError` message of `RelationshipExecutor.__await_impl__`
when the scan finds no executor: it names the action's class and, when a
target was resolved, the target's path. -/
def noExecutorMsg (actionName : String) (target : Option Sel) : String :=
  match target with
  | some t => "No action executor found for " ++ actionName ++ ", target for " ++ t.path
  | none => "No action executor found for " ++ actionName

/-- The executor scan of `RelationshipExecutor.__await_impl__` (lines 46-57):
iterate `action_executors` left to right; run the first whose `pattern` is
`None`, or whose pattern matches the resolved target when one was resolved;
otherwise raise `NotImplementedError` with `noExecutorMsg`. -/
def scanExecutors (execs : List ActionExecutor) (target : Option Sel) (actionName : String) :
    Except String String :=
  match execs with
  | [] => .error (noExecutorMsg actionName target)
  | e :: rest =>
    match e.pattern with
    | none => .ok e.result
    | some p =>
      match target with
      | some t => if p.matches t then .ok e.result else scanExecutors rest target actionName
      | none => scanExecutors rest target actionName

/-- An executor entry is structurally eligible for a target iff its pattern is
absent, or a target was resolved and the pattern matches it. -/
def eligible (target : Option Sel) (e : ActionExecutor) : Bool :=
  match e.pattern with
  | none => true
  | some p =>
    match target with
    | some t => p.matches t
    | none => false

theorem scanExecutors_eq_find (execs : List ActionExecutor) (target : Option Sel)
    (actionName : String) :
    scanExecutors execs target actionName =
      match execs.find? (eligible target) with
      | some e => Except.ok e.result
      | none => Except.error (noExecutorMsg actionName target) := by
  induction execs with
  | nil => rfl
  | cons e rest ih =>
    cases hp : e.pattern with
    | none => simp [scanExecutors, List.find?, eligible, hp]
    | some p =>
      cases ht : target with
      | none => simpa [scanExecutors, List.find?, eligible, hp, ht] using ih
      | some t =>
        by_cases hm : p.matches t
        · simp [scanExecutors, List.find?, eligible, hp, ht, hm]
        · simpa [scanExecutors, List.find?, eligible, hp, ht, hm] using ih

/-- Source `RelationshipExecutor.__init__` (lines 33-37): the effective middleware
list is `relationship.protocol.action_middlewares +
relationship.protocol.avilla.action_middlewares`. -/
def executorMiddlewares (protocolMws avillaMws : List String) : List String :=
  protocolMws ++ avillaMws

/-- One observable event of an action execution: entering a middleware's
scoped context, running the executor body, or exiting a middleware's scope. -/
inductive Ev (α : Type) where
  | enter (m : α)
  | run
  | exit (m : α)
deriving DecidableEq, Repr

/-- Source `RelationshipExecutor.__await_impl__` (lines 42-57): enter each middleware
of the instance list in `reversed` order on an `AsyncExitStack` (which
releases the entered contexts in LIFO order, also when the body raises), run
the executor scan inside, and exit.  Returns the event trace paired with the
scan's outcome; the trace is the same whether the scan succeeds or raises. -/
def awaitImpl (middlewares : List String) (execs : List ActionExecutor)
    (target : Option Sel) (actionName : String) :
    List (Ev String) × Except String String :=
  let entryOrder := middlewares.reverse
  (entryOrder.map Ev.enter ++ [Ev.run] ++ entryOrder.reverse.map Ev.exit,
   scanExecutors execs target actionName)

/-- C2 counterexample: for middlewares `[A, B]` the claim predicts the trace
`enter A, enter B, run, exit B, exit A`; the code iterates the list with
`reversed(...)`, so the actual trace enters B first.  Refuted at a concrete
input. -/
theorem middleware_order_counterexample :
    (awaitImpl ["A", "B"] [⟨none, "r"⟩] none "Act").1 ≠
      [Ev.enter "A", Ev.enter "B", Ev.run, Ev.exit "B", Ev.exit "A"] := by
  decide

/-- C2 amended: for middlewares `[A, B]` declared in that order, B's scoped
context is entered first, then A's — the last-declared middleware is the
outermost wrapper — the executor runs, then scopes exit in exact reverse order
of entry (A first, then B).  In general the entry order is the reverse of the
declaration order, the exit order is the declaration order, and the trace is
the same whether the wrapped scan succeeds or raises (`AsyncExitStack`
releases on failure too): the trace does not depend on the registered
executors, and it is as stated also when the outcome is an error. -/
theorem middleware_nesting_order :
    (∀ (ms : List String) (execs : List ActionExecutor) (target : Option Sel) (n : String),
      (awaitImpl ms execs target n).1 =
        ms.reverse.map Ev.enter ++ [Ev.run] ++ ms.map Ev.exit)
    ∧ (∀ (ms : List String) (target : Option Sel) (n : String),
      (awaitImpl ms [] target n).2 = Except.error (noExecutorMsg n target))
    ∧ (awaitImpl ["A", "B"] [⟨none, "r"⟩] none "Act").1 =
        [Ev.enter "B", Ev.enter "A", Ev.run, Ev.exit "A", Ev.exit "B"] := by
  refine ⟨fun ms execs target n => ?_, fun ms target n => rfl, by decide⟩
  simp [awaitImpl]

/-- C3 counterexample: the claim says the effective list is the application's
global middlewares followed by the protocol-level ones; the code computes
`protocol.action_middlewares + protocol.avilla.action_middlewares`, so with
protocol list `[p]` and application list `[a]` the result is `[p, a]`, not
`[a, p]`. -/
theorem executorMiddlewares_counterexample :
    executorMiddlewares ["p"] ["a"] ≠ ["a"] ++ ["p"] := by
  decide

/-- C3 amended: the effective middleware list computed at construction is the
protocol-level `action_middlewares` followed by the owning application's
global `action_middlewares` appended after it (protocol-level first,
framework-level second): the first block of the list is exactly the protocol
list and the remainder is exactly the application list. -/
theorem executorMiddlewares_order :
    ∀ (protocolMws avillaMws : List String),
      (executorMiddlewares protocolMws avillaMws).take protocolMws.length = protocolMws
      ∧ (executorMiddlewares protocolMws avillaMws).drop protocolMws.length = avillaMws := by
  intro p a
  constructor
  · simp [executorMiddlewares]
  · simp [executorMiddlewares]

/-- C5: action-executor dispatch is a strict left-to-right scan selecting the
first entry whose pattern is absent or whose pattern matches the resolved
target (formalized: the scan agrees with `List.find?` over the eligibility
predicate); in particular, for executors `[full pattern for land.a.b, prefix
pattern for land.a, patternless default]` and resolved target `land.a.b`, the
first (full-pattern) executor is the one that runs. -/
theorem executor_dispatch_first_eligible :
    (∀ (execs : List ActionExecutor) (target : Option Sel) (n : String),
      scanExecutors execs target n =
        match execs.find? (eligible target) with
        | some e => Except.ok e.result
        | none => Except.error (noExecutorMsg n target))
    ∧ scanExecutors
        [⟨some [("land", .str "l"), ("a", .str "x"), ("b", .str "y")], "full"⟩,
         ⟨some [("land", .str "l"), ("a", .str "x")], "short"⟩,
         ⟨none, "default"⟩]
        (some [("land", "l"), ("a", "x"), ("b", "y")]) "Act" = Except.ok "full" := by
  exact ⟨scanExecutors_eq_find, rfl⟩

/-- C6: when the scan completes with no patternless executor and no pattern
matching the resolved target, awaiting the executor raises the
no-executor-found error, whose message contains the action's class name and,
when a target was resolved, the target's path (and names only the action when
none was). -/
theorem executor_dispatch_no_match_fails (execs : List ActionExecutor) (t : Sel) (n : String)
    (h : ∀ e ∈ execs, eligible (some t) e = false) :
    scanExecutors execs (some t) n =
      Except.error ("No action executor found for " ++ n ++ ", target for " ++ t.path)
    ∧ (∃ u v, noExecutorMsg n (some t) = u ++ n ++ v)
    ∧ (∃ u, noExecutorMsg n (some t) = u ++ t.path)
    ∧ (∀ execs2 : List ActionExecutor, (∀ e ∈ execs2, eligible (none : Option Sel) e = false) →
        scanExecutors execs2 none n = Except.error ("No action executor found for " ++ n)) := by
  have hfind : execs.find? (eligible (some t)) = none := by
    exact List.find?_eq_none.mpr fun e he => by simp [h e he]
  refine ⟨?_, ⟨"No action executor found for ", ", target for " ++ t.path, by
      simp [noExecutorMsg, String.append_assoc]⟩,
    ⟨"No action executor found for " ++ n ++ ", target for ", by
      simp [noExecutorMsg, String.append_assoc]⟩, ?_⟩
  · rw [scanExecutors_eq_find, hfind]
    rfl
  · intro execs2 h2
    have hfind2 : execs2.find? (eligible (none : Option Sel)) = none :=
      List.find?_eq_none.mpr fun e he => by simp [h2 e he]
    rw [scanExecutors_eq_find, hfind2]
    rfl

/-- C6 witness: a concrete executor list where the single pattern does not
match the resolved target, so dispatch fails with the diagnostic message. -/
theorem executor_dispatch_no_match_fails_witness :
    scanExecutors [⟨some [("guild", .str "g")], "r"⟩] (some [("land", "l")]) "SendMessage" =
      Except.error ("No action executor found for " ++ "SendMessage" ++ ", target for "
        ++ Sel.path [("land", "l")]) :=
  (executor_dispatch_no_match_fails [⟨some [("guild", .str "g")], "r"⟩] [("land", "l")]
    "SendMessage" (by decide)).1

/-- The error of `Relationship.check()` with no target (spec taxonomy:
`RelationshipUnprovable`). -/
inductive CheckError where
  | relationshipUnprovable
deriving DecidableEq, Repr

/-- Modelled from the spec: the body of `Relationship.check` in the source is
the stub `...` — only the overload declarations and their documenting comments
exist — so the no-target existence check is modelled from the spec: it
verifies the relationship's own existence and raises `RelationshipUnprovable`
whenever that existence cannot be verified; on success the no-target overload
is annotated `-> None`, so it returns no boolean.  `verifiable` stands for
"the relationship's own existence can be verified". -/
def Relationship.checkNoTarget (verifiable : Bool) : Except CheckError (Option Bool) :=
  if verifiable then .ok none else .error .relationshipUnprovable

/-- C4: `check()` with no target raises `RelationshipUnprovable` whenever the
relationship's own existence cannot be verified, and it never returns `false`
in that case (the successful no-target call carries no boolean at all). -/
theorem check_no_target_raises_when_unprovable :
    Relationship.checkNoTarget false = Except.error CheckError.relationshipUnprovable
    ∧ ∀ verifiable, Relationship.checkNoTarget verifiable ≠ Except.ok (some false) := by
  refine ⟨rfl, fun verifiable => ?_⟩
  cases verifiable <;> simp [Relationship.checkNoTarget]

/-- The shapes `Relationship.meta` classifies its `operator` argument into
(source lines 268-277): `CellOf`, `CellCompose`, a `Metadata` subtype, a
`MetadataModifies` instance, or anything else (rejected). -/
inductive MetaOperator where
  | cellOf
  | cellCompose
  | metadataType
  | modifies
  | other
deriving DecidableEq, Repr

/-- The shapes a resolved `meta` target can have: a `Selector` used as-is, a
selectable object converted by `to_selector()`, a `Resource` (selectable, and
routed to its own provider, which may be missing), or a non-selectable
object. -/
inductive MetaTarget where
  | selector (s : Sel)
  | selectable (s : Sel)
  | resource (s : Sel) (hasProvider : Bool)
  | nonSelectable
deriving DecidableEq, Repr

/-- The error kinds `Relationship.meta` can raise, per the spec taxonomy. -/
inductive MetaError where
  | unsupportedOperator
  | missingTarget
  | invalidTarget
  | unsupportedResource
  | unsupportedMetadataFetch
  | unsupportedMetadataModify
deriving DecidableEq, Repr

/-- The final dispatch `Relationship.meta` performs: `source.fetch` or
`source.modify` against the resolved target. -/
inductive MetaDispatch where
  | fetch (target : MetaTarget)
  | modify (target : MetaTarget)
deriving DecidableEq, Repr

/-- Target reference resolution, `target_ref` (source lines 285-292): a `Selector` is used
as-is, a selectable (including a `Resource`) is converted, anything else is
rejected. -/
def MetaTarget.toSel : MetaTarget → Option Sel
  | .selector s => some s
  | .selectable s => some s
  | .resource s _ => some s
  | .nonSelectable => none

/-- Source `Relationship.meta` (lines 256-312): classify the operator, fall
back to the model's default target when no explicit one was given, resolve the
target to a selector, resolve the metadata source (the resource's own
provider for a `Resource` target, otherwise the protocol's provider table),
and dispatch `fetch` or `modify`.  `protocolProvider` embeds
`protocol.get_metadata_provider(target_ref) is not None`. -/
def Relationship.meta (op : MetaOperator) (explicitTarget : Option MetaTarget)
    (defaultTarget : Option MetaTarget) (protocolProvider : Sel → Bool) :
    Except MetaError MetaDispatch :=
  match op with
  | .other => .error .unsupportedOperator
  | _ =>
    let isModify := op == MetaOperator.modifies
    match explicitTarget.orElse fun _ => defaultTarget with
    | none => .error .missingTarget
    | some t =>
      match t.toSel with
      | none => .error .invalidTarget
      | some targetRef =>
        let sourceResolved : Except MetaError Bool :=
          match t with
          | .resource _ hasProv =>
            if hasProv then .ok true else .error .unsupportedResource
          | _ => .ok (protocolProvider targetRef)
        match sourceResolved with
        | .error e => .error e
        | .ok hasSource =>
          if hasSource then
            if isModify then .ok (.modify t) else .ok (.fetch t)
          else if isModify then .error .unsupportedMetadataModify
          else .error .unsupportedMetadataFetch

/-- C9: `meta(operator)` with a recognized operator shape, a model that
declares no default target, and no explicit target raises `MissingTarget`,
and no fetch or modify is dispatched. -/
theorem meta_missing_target (op : MetaOperator) (protocolProvider : Sel → Bool)
    (h : op ≠ MetaOperator.other) :
    Relationship.meta op none none protocolProvider = Except.error MetaError.missingTarget
    ∧ ∀ d, Relationship.meta op none none protocolProvider ≠ Except.ok d := by
  cases op <;> simp_all [Relationship.meta, Option.orElse]

/-- C9 witness: fetching a bare metadata type with no default target and no
explicit target fails with `MissingTarget`. -/
theorem meta_missing_target_witness :
    Relationship.meta MetaOperator.metadataType none none (fun _ => true) =
      Except.error MetaError.missingTarget
    ∧ ∀ d, Relationship.meta MetaOperator.metadataType none none (fun _ => true) ≠
      Except.ok d :=
  meta_missing_target MetaOperator.metadataType (fun _ => true) (by decide)

/-- One of `BaseProtocol.query_handlers`: its declared key-path `prefix`
(named `prefixPath` here; `None` means the root level) and its `queriers`
mapping from level name to generator.  A generator takes the upstream selector
and the match predicate `depth.match` and yields selectors; the handler and
relationship arguments of the source signature carry no data the pipeline
inspects and are dropped. -/
structure QueryHandler where
  prefixPath : Option String
  queriers : List (String × (Sel → (Sel → Bool) → List Sel))

/-- The handler-selection test of `generate_from_upper` (line 192):
`querier.prefix is None or querier.prefix == past`. -/
def handlerAccepts (h : QueryHandler) (past : String) : Bool :=
  h.prefixPath.isNone || h.prefixPath == some past

/-- The error kinds of `Relationship.query`, per the spec taxonomy.
`emptyStack` stands for the `IndexError` Python raises on `stack[-1]` when
every key of a non-empty pattern is `land`. -/
inductive QueryError where
  | invalidArgument
  | noQueryHandler (past : String)
  | noQuerierForLevel (past current : String)
  | emptyStack
deriving DecidableEq, Repr

/-- One iteration of the loop in `Relationship.query` (lines 209-220),
processing one `(key, value)` entry of the pattern.  The state is the
accumulated `past` pattern and the selectors produced by the stages built so
far (`none` before the first stage, mirroring `stack` being empty).  A `land`
key is skipped.  A concrete value extends every upstream selector with the
fixed pair (`generate_with_specified`); a wildcard locates the query handler
whose `prefix` is absent or equals the dot-joined keys before the current one,
then runs its generator for the current level on each upstream selector — or
on a bare `land` selector when there is no upstream stage
(`generate_from_upper`).  The match predicate handed to the generator is
`depth.match`, where `depth` is the accumulated pattern with the
relationship's land prepended when its first key is not `land`.  The source
pipeline is lazy; the embedding evaluates each stage eagerly, which agrees
with the lazy pipeline on every finite single-failing-stage run. -/
def queryStep (handlers : List QueryHandler) (landName : String)
    (st : DynSel × Option (List Sel)) (kv : String × PatValue) :
    Except QueryError (DynSel × Option (List Sel)) :=
  if kv.1 = "land" then .ok st
  else
    let pastEntries := st.1 ++ [kv]
    match kv.2 with
    | .str v =>
      let stage :=
        match st.2 with
        | none => [[(kv.1, v)]]
        | some sels => sels.map fun sel => sel.setKey kv.1 v
      .ok (pastEntries, some stage)
    | .wildcard =>
      let past := String.intercalate "." (st.1.map Prod.fst)
      let depth : DynSel :=
        if (pastEntries.map Prod.fst).head? ≠ some "land" then
          ("land", .str landName) :: pastEntries
        else pastEntries
      match handlers.find? (handlerAccepts · past) with
      | none => .error (.noQueryHandler past)
      | some h =>
        match List.lookup kv.1 h.queriers with
        | none => .error (.noQuerierForLevel past kv.1)
        | some gen =>
          let stage :=
            match st.2 with
            | none => gen [("land", landName)] depth.matches
            | some sels => sels.flatMap fun u => gen u depth.matches
          .ok (pastEntries, some stage)

/-- The loop of `Relationship.query` over the pattern's entries. -/
def queryLoop (handlers : List QueryHandler) (landName : String) :
    DynSel → DynSel × Option (List Sel) → Except QueryError (DynSel × Option (List Sel))
  | [], st => .ok st
  | kv :: rest, st =>
    match queryStep handlers landName st kv with
    | .error e => .error e
    | .ok st' => queryLoop handlers landName rest st'

/-- Source `Relationship.query` (lines 165-222): raise `InvalidArgument` on an empty
pattern, otherwise run the stage pipeline and iterate the last stage. -/
def Relationship.query (handlers : List QueryHandler) (landName : String) (pattern : DynSel) :
    Except QueryError (List Sel) :=
  if pattern.isEmpty then .error .invalidArgument
  else
    match queryLoop handlers landName pattern ([], none) with
    | .error e => .error e
    | .ok (_, some sels) => .ok sels
    | .ok (_, none) => .error .emptyStack

/-- C7: for a pattern whose `land` key is implicit or fixed and whose next
level (`guild`) is wildcarded, `query` yields exactly the selectors the
matching handler's generator produces for that level, in the generator's yield
order, seeded with a bare `land` selector and guarded by the accumulated
pattern's match predicate; a fixed `land` key changes nothing; a subsequent
concrete key is realized by pure narrowing (`setKey`) of each upstream
selector with no handler call; and on the claim's concrete scenario the
output is exactly `{land: L, guild: G1}` then `{land: L, guild: G2}`. -/
theorem query_streams_handler_output :
    (∀ (l : String) (gen : Sel → (Sel → Bool) → List Sel),
      Relationship.query [⟨some "", [("guild", gen)]⟩] l [("guild", PatValue.wildcard)] =
        Except.ok (gen [("land", l)]
          (DynSel.matches [("land", PatValue.str l), ("guild", PatValue.wildcard)])))
    ∧ (∀ (l l2 : String) (gen : Sel → (Sel → Bool) → List Sel),
      Relationship.query [⟨some "", [("guild", gen)]⟩] l
          [("land", PatValue.str l2), ("guild", PatValue.wildcard)] =
        Except.ok (gen [("land", l)]
          (DynSel.matches [("land", PatValue.str l), ("guild", PatValue.wildcard)])))
    ∧ (∀ (l c : String) (gen : Sel → (Sel → Bool) → List Sel),
      Relationship.query [⟨some "", [("guild", gen)]⟩] l
          [("guild", PatValue.wildcard), ("channel", PatValue.str c)] =
        Except.ok ((gen [("land", l)]
            (DynSel.matches [("land", PatValue.str l), ("guild", PatValue.wildcard)])).map
          fun sel => sel.setKey "channel" c))
    ∧ Relationship.query
        [⟨some "", [("guild", fun _ _ =>
          [[("land", "L"), ("guild", "G1")], [("land", "L"), ("guild", "G2")]])]⟩] "L"
        [("guild", PatValue.wildcard)] =
        Except.ok [[("land", "L"), ("guild", "G1")], [("land", "L"), ("guild", "G2")]] := by
  refine ⟨fun l gen => rfl, fun l l2 gen => rfl, fun l c gen => rfl, rfl⟩

/-- C8: `query` on an empty pattern fails with `InvalidArgument` (so no value
is produced); a wildcard level whose accumulated prefix no registered
handler accepts fails with `NoQueryHandler`; and a wildcard level whose
accepted handler registers no generator for the level's key fails with
`NoQuerierForLevel`. -/
theorem query_error_conditions :
    (∀ (handlers : List QueryHandler) (l : String),
      Relationship.query handlers l [] = Except.error QueryError.invalidArgument)
    ∧ (∀ (handlers : List QueryHandler) (l k : String), k ≠ "land" →
      handlers.find? (handlerAccepts · "") = none →
      Relationship.query handlers l [(k, PatValue.wildcard)] =
        Except.error (QueryError.noQueryHandler ""))
    ∧ (∀ (handlers : List QueryHandler) (l k : String) (h : QueryHandler), k ≠ "land" →
      handlers.find? (handlerAccepts · "") = some h →
      List.lookup k h.queriers = none →
      Relationship.query handlers l [(k, PatValue.wildcard)] =
        Except.error (QueryError.noQuerierForLevel "" k)) := by
  refine ⟨fun handlers l => rfl, fun handlers l k hk hfind => ?_, fun handlers l k h hk hfind hq => ?_⟩
  · simp [Relationship.query, queryLoop, queryStep, hk, hfind,
      show String.intercalate "." ([] : List String) = "" from rfl]
  · simp [Relationship.query, queryLoop, queryStep, hk, hfind, hq,
      show String.intercalate "." ([] : List String) = "" from rfl]

/-- C8 witness: with no handlers registered, a `guild` wildcard fails with
`NoQueryHandler ""`; with one root handler that registers no `guild`
generator, it fails with `NoQuerierForLevel "" "guild"`. -/
theorem query_error_conditions_witness :
    Relationship.query [] "L" [("guild", PatValue.wildcard)] =
      Except.error (QueryError.noQueryHandler "")
    ∧ Relationship.query [⟨none, []⟩] "L" [("guild", PatValue.wildcard)] =
      Except.error (QueryError.noQuerierForLevel "" "guild") :=
  ⟨query_error_conditions.2.1 [] "L" "guild" (by decide) rfl,
   query_error_conditions.2.2 [⟨none, []⟩] "L" "guild" ⟨none, []⟩ (by decide) rfl rfl⟩
